import Mathlib

/-!
Verification of the filter-construction and serialization core of the
Open Source Sharing Platform API (`src/main.py`, `src/schemas.py`).

Documents are modelled as association lists from field names to BSON-like
values; the Mongo-style filters built by the GET list handlers are modelled
by a small filter type whose matching semantics is parameterised by the
regex engine (`rmatch pat text`), since the handlers only ever place
`{"$regex": q, "$options": "i"}` conditions and never interpret the
pattern themselves.
-/

namespace OSP

/-- BSON-like value stored in a document.  `oid s` is a MongoDB `ObjectId`
whose canonical string representation (`str(ObjectId)`) is `s`. -/
inductive BVal where
  | str (s : String)
  | num (x : Int)
  | arr (l : List BVal)
  | oid (s : String)
  | null

/-- A stored record: a mapping (Python dict) from field names to values,
in insertion order. -/
abbrev Doc := List (String × BVal)

/-- First value bound to key `k` in the document, like Python dict lookup. -/
def getField (doc : Doc) (k : String) : Option BVal :=
  (doc.find? (fun p => p.1 == k)).map Prod.snd

/-- Python truthiness of an `Optional[str]` parameter: `None` and the empty
string are falsy, every other string is truthy. -/
def pyTruthy : Option String → Bool
  | none => false
  | some s => !s.isEmpty

/-- A single Mongo filter condition as built by the handlers:
either a plain value (exact / array-membership match) or
`{"$regex": pat, "$options": "i"}`. -/
inductive FCond where
  | str (v : String)
  | regexI (pat : String)
  deriving DecidableEq, Repr

/-- A value of the filter dict: a plain condition on the key, or the list
of single-field conditions stored under the `"$or"` key. -/
inductive FVal where
  | cond (c : FCond)
  | orList (alts : List (String × FCond))
  deriving DecidableEq, Repr

/-- The filter dict passed to the store, in insertion order. -/
abbrev Filter := List (String × FVal)

/-- Filter built by `list_datasets` (src/main.py:100-107) from the
optional `tag` and `q` query parameters. -/
def dataset_filter (tag q : Option String) : Filter :=
  (if pyTruthy tag then [("tags", FVal.cond (FCond.str (tag.getD "")))] else []) ++
  (if pyTruthy q then
    [("$or", FVal.orList
      [("name", FCond.regexI (q.getD "")),
       ("description", FCond.regexI (q.getD ""))])]
   else [])

/-- Filter built by `list_tools` (src/main.py:126-133). -/
def tool_filter (tag q : Option String) : Filter :=
  (if pyTruthy tag then [("tags", FVal.cond (FCond.str (tag.getD "")))] else []) ++
  (if pyTruthy q then
    [("$or", FVal.orList
      [("name", FCond.regexI (q.getD "")),
       ("description", FCond.regexI (q.getD ""))])]
   else [])

/-- Filter built by `list_snippets` (src/main.py:152-162) from `tag`,
`language` and `q`. -/
def snippet_filter (tag language q : Option String) : Filter :=
  (if pyTruthy tag then [("tags", FVal.cond (FCond.str (tag.getD "")))] else []) ++
  (if pyTruthy language then
    [("language", FVal.cond (FCond.str (language.getD "")))] else []) ++
  (if pyTruthy q then
    [("$or", FVal.orList
      [("title", FCond.regexI (q.getD "")),
       ("description", FCond.regexI (q.getD "")),
       ("code", FCond.regexI (q.getD ""))])]
   else [])

/-- Mongo equality condition `{field: v}` on a field value: matches a string
field equal to `v`, or an array field one of whose elements equals `v`
(exact membership); a missing field does not match. -/
def eqMatch (v : String) : Option BVal → Bool
  | some (BVal.str s) => s == v
  | some (BVal.arr l) =>
      l.any (fun x => match x with
        | BVal.str s => s == v
        | _ => false)
  | _ => false

/-- Mongo regex condition on a field value, with the regex engine `rmatch`
abstracted: matches a string field whose text matches the pattern, or an
array field one of whose string elements does. -/
def regexMatch (rmatch : String → String → Bool) (pat : String) :
    Option BVal → Bool
  | some (BVal.str s) => rmatch pat s
  | some (BVal.arr l) =>
      l.any (fun v => match v with
        | BVal.str s => rmatch pat s
        | _ => false)
  | _ => false

/-- Match one single-field condition against a document. -/
def matchCond (rmatch : String → String → Bool) (doc : Doc) (k : String) :
    FCond → Bool
  | FCond.str v => eqMatch v (getField doc k)
  | FCond.regexI pat => regexMatch rmatch pat (getField doc k)

/-- Match one entry of the filter dict: a plain condition constrains its
key's field; the `"$or"` list matches when any alternative matches. -/
def matchEntry (rmatch : String → String → Bool) (doc : Doc) :
    String × FVal → Bool
  | (k, FVal.cond c) => matchCond rmatch doc k c
  | (_, FVal.orList alts) => alts.any (fun p => matchCond rmatch doc p.1 p.2)

/-- Mongo filter semantics: all entries of the filter dict must match
(implicit AND); the empty filter matches everything. -/
def matchesFilter (rmatch : String → String → Bool) (f : Filter) (doc : Doc) :
    Bool :=
  f.all (matchEntry rmatch doc)

/-! ### Response serializer (src/main.py:22-29) -/

/-- Is the value a store-native `ObjectId`? -/
def isOid : BVal → Bool
  | BVal.oid _ => true
  | _ => false

/-- How `serialize_doc` rewrites one value: `isinstance(v, ObjectId)` is
replaced by `str(v)` (its hex string), any other value passes through. -/
def serializeVal : BVal → BVal
  | BVal.oid s => BVal.str s
  | v => v

/-- Function `serialize_doc` (src/main.py:22-29): rebuilds the record key by key,
converting `ObjectId` values to their string representation.  It is a
total Lean function over every record shape. -/
def serialize_doc (doc : Doc) : Doc :=
  doc.map (fun p => (p.1, serializeVal p.2))

/-! ### Minimal regex engine

The handlers hand the raw query string to Mongo as a `$regex` pattern with
option `i`.  To reason about what such a pattern *does*, we implement the
fragment of the regex language consisting of literal characters and the
`.` metacharacter (match any one character), with case-insensitive
comparison and unanchored search — faithful to PCRE semantics on patterns
that contain no other metacharacters. -/

/-- One pattern character against one text character, case-insensitively;
`.` matches anything. -/
def charMatchesI (p c : Char) : Bool :=
  p == '.' || p.toLower == c.toLower

/-- Match the whole pattern at the head of the text. -/
def matchHereI : List Char → List Char → Bool
  | [], _ => true
  | _ :: _, [] => false
  | p :: ps, c :: cs => charMatchesI p c && matchHereI ps cs

/-- Unanchored search: the pattern matches at some position of the text. -/
def searchI (pat : List Char) : List Char → Bool
  | [] => matchHereI pat []
  | c :: cs => matchHereI pat (c :: cs) || searchI pat cs

/-- Case-insensitive regex match (`$regex` with `$options: "i"`) for
patterns made of literal characters and `.`. -/
def regexIMatch (pat text : String) : Bool :=
  searchI pat.toList text.toList

/-- Case-insensitive *literal* substring containment, for contrast with
the pattern semantics. -/
def literalHereI : List Char → List Char → Bool
  | [], _ => true
  | _ :: _, [] => false
  | p :: ps, c :: cs => (p.toLower == c.toLower) && literalHereI ps cs

/-- Case-insensitive literal substring search. -/
def literalSearchI (pat : List Char) : List Char → Bool
  | [] => literalHereI pat []
  | c :: cs => literalHereI pat (c :: cs) || literalSearchI pat cs

/-- Whether `needle` occurs in `hay` as a case-insensitive literal substring. -/
def containsSubstrI (needle hay : String) : Bool :=
  literalSearchI needle.toList hay.toList

/-! ### Document store adapter and GET list handlers

`database.py` (imported by `src/main.py` as `create_document`,
`get_documents`, `db`) is not part of the sources; its operations are
modelled from the spec. -/

/-- Modelled from the spec: `database.get_documents` (the Document Store
Adapter's `list` operation, absent from the sources) returns up to `limit`
records of the collection matching the filter, in store order. -/
def get_documents (rmatch : String → String → Bool) (store : List Doc)
    (filt : Filter) (limit : Nat) : List Doc :=
  (store.filter (fun d => matchesFilter rmatch filt d)).take limit

/-- Handler `list_datasets` (src/main.py:98-109): build the filter, query the
store with the given limit (default 50), serialize each record. -/
def list_datasets (rmatch : String → String → Bool) (store : List Doc)
    (tag q : Option String) (limit : Nat := 50) : List Doc :=
  (get_documents rmatch store (dataset_filter tag q) limit).map serialize_doc

/-- Handler `list_tools` (src/main.py:124-135). -/
def list_tools (rmatch : String → String → Bool) (store : List Doc)
    (tag q : Option String) (limit : Nat := 50) : List Doc :=
  (get_documents rmatch store (tool_filter tag q) limit).map serialize_doc

/-- Handler `list_snippets` (src/main.py:150-164). -/
def list_snippets (rmatch : String → String → Bool) (store : List Doc)
    (tag q language : Option String) (limit : Nat := 50) : List Doc :=
  (get_documents rmatch store (snippet_filter tag language q) limit).map
    serialize_doc

/-! ### Schema validation (src/schemas.py)

Inbound JSON bodies are association lists of JSON values.  The pydantic
models `Dataset`, `Tool`, `Snippet` are embedded as validators that either
reject the payload with a validation-error message or produce the
validated document that is handed to the store. -/

/-- Inbound JSON value. -/
inductive JVal where
  | str (s : String)
  | num (x : Int)
  | arr (l : List JVal)
  | null

/-- Inbound JSON body: a mapping from field names to JSON values. -/
abbrev Payload := List (String × JVal)

/-- Lookup of a field in the payload. -/
def lookupJ (p : Payload) (k : String) : Option JVal :=
  (p.find? (fun q => q.1 == k)).map Prod.snd

/-- Does the first character list start with the second?  (A computable
stand-in for `String.startsWith`.) -/
def startsWithChars : List Char → List Char → Bool
  | _, [] => true
  | [], _ :: _ => false
  | a :: as, b :: bs => a == b && startsWithChars as bs

/-- Modelled from pydantic `HttpUrl`: the string must carry an `http` or
`https` scheme followed by a nonempty remainder (the host). -/
def isHttpUrl (s : String) : Bool :=
  (startsWithChars s.toList "http://".toList &&
    "http://".length < s.length) ||
  (startsWithChars s.toList "https://".toList &&
    "https://".length < s.length)

/-- A required `str` field: present and a string, otherwise a
validation error. -/
def getReqStr (p : Payload) (k : String) : Except String String :=
  match lookupJ p k with
  | none => Except.error (k ++ ": Field required")
  | some (JVal.str s) => Except.ok s
  | some _ => Except.error (k ++ ": Input should be a valid string")

/-- An `Optional[str]` field: absent or null is `none`. -/
def getOptStr (p : Payload) (k : String) : Except String (Option String) :=
  match lookupJ p k with
  | none => Except.ok none
  | some JVal.null => Except.ok none
  | some (JVal.str s) => Except.ok (some s)
  | some _ => Except.error (k ++ ": Input should be a valid string")

/-- A required `HttpUrl` field: present, a string, and a parseable URL. -/
def getReqUrl (p : Payload) (k : String) : Except String String :=
  match lookupJ p k with
  | none => Except.error (k ++ ": Field required")
  | some (JVal.str s) =>
      if isHttpUrl s then Except.ok s
      else Except.error (k ++ ": Input should be a valid URL")
  | some _ => Except.error (k ++ ": URL input should be a string or URL")

/-- An `Optional[HttpUrl]` field. -/
def getOptUrl (p : Payload) (k : String) : Except String (Option String) :=
  match lookupJ p k with
  | none => Except.ok none
  | some JVal.null => Except.ok none
  | some (JVal.str s) =>
      if isHttpUrl s then Except.ok (some s)
      else Except.error (k ++ ": Input should be a valid URL")
  | some _ => Except.error (k ++ ": URL input should be a string or URL")

/-- The `size_mb: Optional[float] = Field(None, ge=0)` field: absent or
null is `none`; a number must be non-negative. -/
def getOptNonnegNum (p : Payload) (k : String) : Except String (Option Int) :=
  match lookupJ p k with
  | none => Except.ok none
  | some JVal.null => Except.ok none
  | some (JVal.num x) =>
      if 0 ≤ x then Except.ok (some x)
      else Except.error (k ++ ": Input should be greater than or equal to 0")
  | some _ => Except.error (k ++ ": Input should be a valid number")

/-- Every element of the `tags` list must be a string. -/
def asStrList : List JVal → Except String (List String)
  | [] => Except.ok []
  | JVal.str s :: rest =>
      match asStrList rest with
      | Except.ok l => Except.ok (s :: l)
      | Except.error e => Except.error e
  | _ :: _ => Except.error "tags: Input should be a valid string"

/-- The `tags: List[str] = Field(default_factory=list)` field: absent means
the empty list; present must be a list of strings. -/
def getTags (p : Payload) : Except String (List String) :=
  match lookupJ p "tags" with
  | none => Except.ok []
  | some (JVal.arr l) => asStrList l
  | some _ => Except.error "tags: Input should be a valid list"

/-- Validated value of an optional string field in the stored document
(`None` is stored as null). -/
def optStrVal : Option String → BVal
  | none => BVal.null
  | some s => BVal.str s

/-- Validated value of an optional numeric field. -/
def optNumVal : Option Int → BVal
  | none => BVal.null
  | some x => BVal.num x

/-- The `Dataset` model (src/schemas.py:18-30): required `name`,
`description`, `url` (URL); optional `repo_url` (URL), `license`,
`maintainer`, `size_mb` (≥ 0); `tags` defaulting to the empty list. -/
def validateDataset (p : Payload) : Except String Doc := do
  let name ← getReqStr p "name"
  let description ← getReqStr p "description"
  let url ← getReqUrl p "url"
  let repo_url ← getOptUrl p "repo_url"
  let license ← getOptStr p "license"
  let maintainer ← getOptStr p "maintainer"
  let size_mb ← getOptNonnegNum p "size_mb"
  let tags ← getTags p
  pure [("name", BVal.str name), ("description", BVal.str description),
        ("url", BVal.str url), ("repo_url", optStrVal repo_url),
        ("license", optStrVal license), ("maintainer", optStrVal maintainer),
        ("size_mb", optNumVal size_mb),
        ("tags", BVal.arr (tags.map BVal.str))]

/-- The `Tool` model (src/schemas.py:32-42): required `name`,
`description`, `repo_url` (URL); optional `homepage_url` (URL), `license`;
`tags` defaulting to the empty list. -/
def validateTool (p : Payload) : Except String Doc := do
  let name ← getReqStr p "name"
  let description ← getReqStr p "description"
  let repo_url ← getReqUrl p "repo_url"
  let homepage_url ← getOptUrl p "homepage_url"
  let license ← getOptStr p "license"
  let tags ← getTags p
  pure [("name", BVal.str name), ("description", BVal.str description),
        ("repo_url", BVal.str repo_url),
        ("homepage_url", optStrVal homepage_url),
        ("license", optStrVal license),
        ("tags", BVal.arr (tags.map BVal.str))]

/-- The `Snippet` model (src/schemas.py:44-54): required `title`,
`description`, `language`, `code`; optional `repo_url` (URL); `tags`
defaulting to the empty list. -/
def validateSnippet (p : Payload) : Except String Doc := do
  let title ← getReqStr p "title"
  let description ← getReqStr p "description"
  let language ← getReqStr p "language"
  let code ← getReqStr p "code"
  let repo_url ← getOptUrl p "repo_url"
  let tags ← getTags p
  pure [("title", BVal.str title), ("description", BVal.str description),
        ("language", BVal.str language), ("code", BVal.str code),
        ("repo_url", optStrVal repo_url),
        ("tags", BVal.arr (tags.map BVal.str))]

/-! ### POST handlers (src/main.py:112-118, 138-144, 167-173) -/

/-- The errors the Document Store Adapter may raise (spec §4.2, §7);
`database.py` is absent from the sources, so the taxonomy is taken from
the spec. -/
inductive StoreError where
  | storeUnavailable (msg : String)
  | queryError (msg : String)
  | writeError (msg : String)
  deriving DecidableEq, Repr

/-- The text `str(e)` of a store error: its message. -/
def StoreError.message : StoreError → String
  | StoreError.storeUnavailable m => m
  | StoreError.queryError m => m
  | StoreError.writeError m => m

/-- Response of a POST handler: 201 with the new id, or an
`HTTPException` status and detail. -/
inductive PostResponse where
  | created (id : String)
  | httpError (status : Nat) (detail : String)
  deriving DecidableEq, Repr

/-- HTTP status of a POST response (the route is declared with
`status_code=201`). -/
def PostResponse.statusCode : PostResponse → Nat
  | PostResponse.created _ => 201
  | PostResponse.httpError s _ => s

/-- Body of the three create handlers (src/main.py:112-118, 138-144,
167-173), given the outcome of `create_document`: a successful insert
returns `{"id": inserted_id}` with status 201; any raised exception is
re-raised as `HTTPException(status_code=400, detail=str(e))`. -/
def create_handler (ins : Except StoreError String) : PostResponse :=
  match ins with
  | Except.ok i => PostResponse.created i
  | Except.error e => PostResponse.httpError 400 e.message

/-- Handler `create_dataset` (src/main.py:112-118). -/
def create_dataset (ins : Except StoreError String) : PostResponse :=
  create_handler ins

/-- Handler `create_tool` (src/main.py:138-144). -/
def create_tool (ins : Except StoreError String) : PostResponse :=
  create_handler ins

/-- Handler `create_snippet` (src/main.py:167-173). -/
def create_snippet (ins : Except StoreError String) : PostResponse :=
  create_handler ins

/-- Modelled from the spec: the full POST pipeline for one collection.
The HTTP surface validates the body against the schema before the handler
runs; a payload failing validation is rejected with a `ValidationError`
(HTTP 400 per spec §7) and the Document Store Adapter is never invoked —
the store is unchanged.  `database.create_document` (absent from the
sources) durably appends the validated record with a fresh identifier and
returns that identifier (spec §4.2). -/
def post_pipeline (validate : Payload → Except String Doc)
    (store : List Doc) (freshId : String) (p : Payload) :
    List Doc × PostResponse :=
  match validate p with
  | Except.error msg => (store, PostResponse.httpError 400 msg)
  | Except.ok doc =>
      (store ++ [("_id", BVal.oid freshId) :: doc],
       PostResponse.created freshId)

/-- POST `/api/datasets` end to end. -/
def post_dataset (store : List Doc) (freshId : String) (p : Payload) :
    List Doc × PostResponse :=
  post_pipeline validateDataset store freshId p

/-- POST `/api/tools` end to end. -/
def post_tool (store : List Doc) (freshId : String) (p : Payload) :
    List Doc × PostResponse :=
  post_pipeline validateTool store freshId p

/-- POST `/api/snippets` end to end. -/
def post_snippet (store : List Doc) (freshId : String) (p : Payload) :
    List Doc × PostResponse :=
  post_pipeline validateSnippet store freshId p

/-! ### Diagnostic endpoint GET /test (src/main.py:42-76) -/

/-- The global `db` handle as seen by `test_database`: its `name`
attribute when `hasattr(db, 'name')`, and the outcome of
`db.list_collection_names()` (`Except.error msg` models the call raising
an exception whose `str` is `msg`). -/
structure DbHandle where
  name : Option String
  list_collection_names : Except String (List String)

/-- The response dict built by `test_database`.  `database_url` and
`database_name` start out as `None` but are unconditionally overwritten
with strings before the function returns, so they are modelled as
strings. -/
structure TestResponse where
  backend : String
  database : String
  database_url : String
  database_name : String
  connection_status : String
  collections : List String
  deriving DecidableEq, Repr

/-- Python `s[:50]`: the first 50 characters of the string. -/
def take50 (s : String) : String :=
  String.mk (s.data.take 50)

/-- Handler `test_database` (src/main.py:42-76): probes the store handle and
reports its health inside the payload; the inner `try` catches any
exception from `list_collection_names` and embeds `str(e)[:50]`, and the
final two lines overwrite `database_url` / `database_name` from the
environment flags. -/
def test_database (db : Option DbHandle) (envUrlSet envNameSet : Bool) :
    TestResponse :=
  let r0 : TestResponse :=
    { backend := "✅ Running"
      database := "❌ Not Available"
      database_url := ""
      database_name := ""
      connection_status := "Not Connected"
      collections := [] }
  let r1 :=
    match db with
    | none => { r0 with database := "⚠️  Available but not initialized" }
    | some d =>
        let r :=
          { r0 with
            database := "✅ Available"
            database_url := "✅ Configured"
            database_name :=
              (match d.name with
               | some n => n
               | none => "✅ Connected")
            connection_status := "Connected" }
        match d.list_collection_names with
        | Except.ok cols =>
            { r with
              collections := cols.take 10
              database := "✅ Connected & Working" }
        | Except.error e =>
            { r with database := "⚠️  Connected but Error: " ++ take50 e }
  { r1 with
    database_url := if envUrlSet then "✅ Set" else "❌ Not Set"
    database_name := if envNameSet then "✅ Set" else "❌ Not Set" }

/-- The `/test` route as seen by the HTTP layer: an `Except.error` would
be an `HTTPException` escaping the handler; the handler always returns
its payload. -/
def test_route (db : Option DbHandle) (envUrlSet envNameSet : Bool) :
    Except (Nat × String) TestResponse :=
  Except.ok (test_database db envUrlSet envNameSet)

/-! ## Helper lemmas -/

lemma matchesFilter_append (rmatch : String → String → Bool)
    (a b : Filter) (doc : Doc) :
    matchesFilter rmatch (a ++ b) doc =
      (matchesFilter rmatch a doc && matchesFilter rmatch b doc) := by
  simp [matchesFilter, List.all_append]

lemma pyTruthy_some {s : String} (h : s ≠ "") : pyTruthy (some s) = true := by
  have : s.isEmpty = false := by
    cases he : s.isEmpty with
    | false => rfl
    | true => exact absurd ((String.isEmpty_iff s).mp he) h
  simp [pyTruthy, this]

lemma pyTruthy_eq_isSome {o : Option String} (h : o ≠ some "") :
    pyTruthy o = o.isSome := by
  rcases o with _ | s
  · rfl
  · have hs : s ≠ "" := fun he => h (by rw [he])
    simp [pyTruthy_some hs]

/-! ## Claims -/

/-- Claim C1: For every GET list request (with each supplied parameter a
non-empty string — the empty-string degeneracy is treated separately),
the constructed store filter combines the supplied conditions with
logical AND: an exact membership condition on `tags` when a tag is
supplied, an exact-match condition on `language` when supplied (snippets
only), and a case-insensitive substring (regex) OR-group over the kind's
designated text fields (Dataset: name, description; Tool: name,
description; Snippet: title, description, code) when a query string is
supplied; when no condition is supplied the filter is empty and matches
everything. -/
theorem filter_builder_and_or_semantics
    (tag q language : Option String)
    (htag : tag ≠ some "") (hq : q ≠ some "") (hlang : language ≠ some "")
    (rmatch : String → String → Bool) (doc : Doc) :
    (matchesFilter rmatch (snippet_filter tag language q) doc =
      ((match tag with
        | none => true
        | some t => eqMatch t (getField doc "tags")) &&
       ((match language with
         | none => true
         | some lng => eqMatch lng (getField doc "language")) &&
        (match q with
         | none => true
         | some s =>
             (regexMatch rmatch s (getField doc "title") ||
              (regexMatch rmatch s (getField doc "description") ||
               regexMatch rmatch s (getField doc "code"))))))) ∧
    (matchesFilter rmatch (dataset_filter tag q) doc =
      ((match tag with
        | none => true
        | some t => eqMatch t (getField doc "tags")) &&
       (match q with
        | none => true
        | some s =>
            (regexMatch rmatch s (getField doc "name") ||
             regexMatch rmatch s (getField doc "description"))))) ∧
    (matchesFilter rmatch (tool_filter tag q) doc =
      ((match tag with
        | none => true
        | some t => eqMatch t (getField doc "tags")) &&
       (match q with
        | none => true
        | some s =>
            (regexMatch rmatch s (getField doc "name") ||
             regexMatch rmatch s (getField doc "description"))))) ∧
    snippet_filter none none none = [] ∧
    dataset_filter none none = [] ∧
    tool_filter none none = [] ∧
    matchesFilter rmatch [] doc = true := by
  have htag' := pyTruthy_eq_isSome htag
  have hq' := pyTruthy_eq_isSome hq
  have hlang' := pyTruthy_eq_isSome hlang
  refine ⟨?_, ?_, ?_, rfl, rfl, rfl, rfl⟩ <;>
    rcases tag with _ | t <;> rcases q with _ | s <;>
      rcases language with _ | lng <;>
    simp_all [snippet_filter, dataset_filter, tool_filter, matchesFilter,
      matchEntry, matchCond, List.all_append]

/-- Witness for C1: the snippet filter for `tag=nlp`, `language=python`,
`q=corpus` evaluated on the empty record. -/
theorem filter_builder_and_or_semantics_witness :
    (some "nlp" : Option String) ≠ some "" ∧
    matchesFilter regexIMatch
        (snippet_filter (some "nlp") (some "python") (some "corpus")) [] =
      (eqMatch "nlp" (getField [] "tags") &&
       (eqMatch "python" (getField [] "language") &&
        (regexMatch regexIMatch "corpus" (getField [] "title") ||
         (regexMatch regexIMatch "corpus" (getField [] "description") ||
          regexMatch regexIMatch "corpus" (getField [] "code"))))) :=
  ⟨by decide,
   (filter_builder_and_or_semantics (some "nlp") (some "corpus")
     (some "python") (by decide) (by decide) (by decide) regexIMatch []).1⟩

lemma serializeVal_of_not_oid {v : BVal} (h : isOid v = false) :
    serializeVal v = v := by
  cases v <;> simp_all [isOid, serializeVal]

lemma isOid_serializeVal (v : BVal) : isOid (serializeVal v) = false := by
  cases v <;> rfl

/-- Claim C2: `serialize_doc` returns a mapping with the same keys in which
every `ObjectId` value is replaced by its string representation and every
other value passes through unchanged; it is total over any record shape,
so no record in a GET list response carries an `ObjectId` value. -/
theorem serialize_doc_contract (doc : Doc) :
    (serialize_doc doc).map Prod.fst = doc.map Prod.fst ∧
    (∀ k s, (k, BVal.oid s) ∈ doc → (k, BVal.str s) ∈ serialize_doc doc) ∧
    (∀ k v, (k, v) ∈ doc → isOid v = false → (k, v) ∈ serialize_doc doc) ∧
    (∀ k v, (k, v) ∈ serialize_doc doc → isOid v = false) ∧
    (∀ rmatch store tag q limit d,
       d ∈ list_datasets rmatch store tag q limit →
       ∀ k v, (k, v) ∈ d → isOid v = false) ∧
    (∀ rmatch store tag q limit d,
       d ∈ list_tools rmatch store tag q limit →
       ∀ k v, (k, v) ∈ d → isOid v = false) ∧
    (∀ rmatch store tag q language limit d,
       d ∈ list_snippets rmatch store tag q language limit →
       ∀ k v, (k, v) ∈ d → isOid v = false) := by
  have hout : ∀ (l : Doc) (k : String) (v : BVal),
      (k, v) ∈ serialize_doc l → isOid v = false := by
    intro l k v hv
    rcases List.mem_map.mp hv with ⟨⟨k', v'⟩, _, hp⟩
    cases hp
    exact isOid_serializeVal v'
  refine ⟨?_, ?_, ?_, hout doc, ?_, ?_, ?_⟩
  · simp [serialize_doc]
  · intro k s hm
    exact List.mem_map.mpr ⟨(k, BVal.oid s), hm, rfl⟩
  · intro k v hm hv
    have h2 : (k, serializeVal v) ∈ serialize_doc doc :=
      List.mem_map.mpr ⟨(k, v), hm, rfl⟩
    rwa [serializeVal_of_not_oid hv] at h2
  · intro rmatch store tag q limit d hd k v hv
    rcases List.mem_map.mp hd with ⟨d', _, hp⟩
    exact hout d' k v (hp ▸ hv)
  · intro rmatch store tag q limit d hd k v hv
    rcases List.mem_map.mp hd with ⟨d', _, hp⟩
    exact hout d' k v (hp ▸ hv)
  · intro rmatch store tag q language limit d hd k v hv
    rcases List.mem_map.mp hd with ⟨d', _, hp⟩
    exact hout d' k v (hp ▸ hv)

/-- Witness for C2: serializing a record whose `_id` is an `ObjectId`
yields the record with the id as a string. -/
theorem serialize_doc_contract_witness :
    ("_id", BVal.oid "64ffd2aab3c1e4d5f6a7b8c9") ∈
      ([("_id", BVal.oid "64ffd2aab3c1e4d5f6a7b8c9"),
        ("name", BVal.str "jq")] : Doc) ∧
    ("_id", BVal.str "64ffd2aab3c1e4d5f6a7b8c9") ∈
      serialize_doc [("_id", BVal.oid "64ffd2aab3c1e4d5f6a7b8c9"),
                     ("name", BVal.str "jq")] :=
  ⟨List.mem_cons_self _ _,
   (serialize_doc_contract
      [("_id", BVal.oid "64ffd2aab3c1e4d5f6a7b8c9"),
       ("name", BVal.str "jq")]).2.1
     "_id" "64ffd2aab3c1e4d5f6a7b8c9" (List.mem_cons_self _ _)⟩

/-- Claim C10: Supplying the empty string for `tag`, `q` or `language`
produces exactly the same filter as omitting the parameter (the handlers
test truthiness, not presence), so `tag=""` matches every record rather
than only records carrying an empty-string tag. -/
theorem empty_string_param_same_as_omitted
    (tag q language : Option String) :
    dataset_filter (some "") q = dataset_filter none q ∧
    dataset_filter tag (some "") = dataset_filter tag none ∧
    tool_filter (some "") q = tool_filter none q ∧
    tool_filter tag (some "") = tool_filter tag none ∧
    snippet_filter (some "") language q = snippet_filter none language q ∧
    snippet_filter tag (some "") q = snippet_filter tag none q ∧
    snippet_filter tag language (some "") = snippet_filter tag language none ∧
    (∀ rmatch doc,
       matchesFilter rmatch (dataset_filter (some "") none) doc = true) :=
  ⟨rfl, rfl, rfl, rfl, rfl, rfl, rfl, fun _ _ => rfl⟩

lemma bind_ok {α β : Type} {x : Except String α} {f : α → Except String β}
    {b : β} (h : (x >>= f) = Except.ok b) :
    ∃ a, x = Except.ok a ∧ f a = Except.ok b := by
  cases x with
  | error e => simp [Bind.bind, Except.bind] at h
  | ok a => exact ⟨a, rfl, by simpa [Bind.bind, Except.bind] using h⟩

lemma validateDataset_ok {p : Payload} {doc : Doc}
    (h : validateDataset p = Except.ok doc) :
    ∃ name description url repo_url license maintainer size_mb tags,
      getReqStr p "name" = Except.ok name ∧
      getReqStr p "description" = Except.ok description ∧
      getReqUrl p "url" = Except.ok url ∧
      getOptUrl p "repo_url" = Except.ok repo_url ∧
      getOptStr p "license" = Except.ok license ∧
      getOptStr p "maintainer" = Except.ok maintainer ∧
      getOptNonnegNum p "size_mb" = Except.ok size_mb ∧
      getTags p = Except.ok tags ∧
      doc = [("name", BVal.str name), ("description", BVal.str description),
             ("url", BVal.str url), ("repo_url", optStrVal repo_url),
             ("license", optStrVal license),
             ("maintainer", optStrVal maintainer),
             ("size_mb", optNumVal size_mb),
             ("tags", BVal.arr (tags.map BVal.str))] := by
  unfold validateDataset at h
  obtain ⟨name, h1, h⟩ := bind_ok h
  obtain ⟨description, h2, h⟩ := bind_ok h
  obtain ⟨url, h3, h⟩ := bind_ok h
  obtain ⟨repo_url, h4, h⟩ := bind_ok h
  obtain ⟨license, h5, h⟩ := bind_ok h
  obtain ⟨maintainer, h6, h⟩ := bind_ok h
  obtain ⟨size_mb, h7, h⟩ := bind_ok h
  obtain ⟨tags, h8, h⟩ := bind_ok h
  refine ⟨name, description, url, repo_url, license, maintainer, size_mb,
    tags, h1, h2, h3, h4, h5, h6, h7, h8, ?_⟩
  simpa [pure, Except.pure] using h.symm

lemma validateTool_ok {p : Payload} {doc : Doc}
    (h : validateTool p = Except.ok doc) :
    ∃ name description repo_url homepage_url license tags,
      getReqStr p "name" = Except.ok name ∧
      getReqStr p "description" = Except.ok description ∧
      getReqUrl p "repo_url" = Except.ok repo_url ∧
      getOptUrl p "homepage_url" = Except.ok homepage_url ∧
      getOptStr p "license" = Except.ok license ∧
      getTags p = Except.ok tags ∧
      doc = [("name", BVal.str name), ("description", BVal.str description),
             ("repo_url", BVal.str repo_url),
             ("homepage_url", optStrVal homepage_url),
             ("license", optStrVal license),
             ("tags", BVal.arr (tags.map BVal.str))] := by
  unfold validateTool at h
  obtain ⟨name, h1, h⟩ := bind_ok h
  obtain ⟨description, h2, h⟩ := bind_ok h
  obtain ⟨repo_url, h3, h⟩ := bind_ok h
  obtain ⟨homepage_url, h4, h⟩ := bind_ok h
  obtain ⟨license, h5, h⟩ := bind_ok h
  obtain ⟨tags, h6, h⟩ := bind_ok h
  refine ⟨name, description, repo_url, homepage_url, license, tags,
    h1, h2, h3, h4, h5, h6, ?_⟩
  simpa [pure, Except.pure] using h.symm

lemma validateSnippet_ok {p : Payload} {doc : Doc}
    (h : validateSnippet p = Except.ok doc) :
    ∃ title description language code repo_url tags,
      getReqStr p "title" = Except.ok title ∧
      getReqStr p "description" = Except.ok description ∧
      getReqStr p "language" = Except.ok language ∧
      getReqStr p "code" = Except.ok code ∧
      getOptUrl p "repo_url" = Except.ok repo_url ∧
      getTags p = Except.ok tags ∧
      doc = [("title", BVal.str title), ("description", BVal.str description),
             ("language", BVal.str language), ("code", BVal.str code),
             ("repo_url", optStrVal repo_url),
             ("tags", BVal.arr (tags.map BVal.str))] := by
  unfold validateSnippet at h
  obtain ⟨title, h1, h⟩ := bind_ok h
  obtain ⟨description, h2, h⟩ := bind_ok h
  obtain ⟨language, h3, h⟩ := bind_ok h
  obtain ⟨code, h4, h⟩ := bind_ok h
  obtain ⟨repo_url, h5, h⟩ := bind_ok h
  obtain ⟨tags, h6, h⟩ := bind_ok h
  refine ⟨title, description, language, code, repo_url, tags,
    h1, h2, h3, h4, h5, h6, ?_⟩
  simpa [pure, Except.pure] using h.symm

lemma getTags_of_absent {p : Payload} (h : lookupJ p "tags" = none) :
    getTags p = Except.ok [] := by
  simp [getTags, h]

/-- Claim C3: A POST payload failing schema validation is rejected with a
validation error (HTTP 400) before the store insert runs: the response is
the 400 error and the store is returned unchanged. -/
theorem validation_rejection_precedes_insert
    (store : List Doc) (freshId : String) (p : Payload) :
    (∀ msg, validateDataset p = Except.error msg →
       post_dataset store freshId p =
         (store, PostResponse.httpError 400 msg)) ∧
    (∀ msg, validateTool p = Except.error msg →
       post_tool store freshId p =
         (store, PostResponse.httpError 400 msg)) ∧
    (∀ msg, validateSnippet p = Except.error msg →
       post_snippet store freshId p =
         (store, PostResponse.httpError 400 msg)) := by
  refine ⟨?_, ?_, ?_⟩ <;> intro msg h <;>
    simp [post_dataset, post_tool, post_snippet, post_pipeline, h]

/-- Witness for C3: a snippet payload missing every required field is
rejected with a 400 and the (empty) store is unchanged. -/
theorem validation_rejection_precedes_insert_witness :
    validateSnippet [] = Except.error "title: Field required" ∧
    post_snippet [] "unused" [] =
      ([], PostResponse.httpError 400 "title: Field required") :=
  ⟨rfl, (validation_rejection_precedes_insert [] "unused" []).2.2 _ rfl⟩

/-- Claim C4: When the store insert raises a `StoreUnavailable`, `QueryError`
or `WriteError`, each create handler returns HTTP 400 with the error's
message as the detail; on a successful insert it returns status 201 with
the newly assigned identifier. -/
theorem create_handler_error_mapping (ins : Except StoreError String) :
    (∀ e, ins = Except.error e →
       create_dataset ins = PostResponse.httpError 400 e.message ∧
       create_tool ins = PostResponse.httpError 400 e.message ∧
       create_snippet ins = PostResponse.httpError 400 e.message ∧
       (create_dataset ins).statusCode = 400) ∧
    (∀ i, ins = Except.ok i →
       create_dataset ins = PostResponse.created i ∧
       create_tool ins = PostResponse.created i ∧
       create_snippet ins = PostResponse.created i ∧
       (create_dataset ins).statusCode = 201) := by
  constructor
  · rintro e rfl
    exact ⟨rfl, rfl, rfl, rfl⟩
  · rintro i rfl
    exact ⟨rfl, rfl, rfl, rfl⟩

/-- Witness for C4: a `WriteError` surfaces as a 400 whose detail is the
error's message, and a successful insert as a 201 with the id. -/
theorem create_handler_error_mapping_witness :
    create_dataset (Except.error (StoreError.writeError "duplicate key")) =
      PostResponse.httpError 400 "duplicate key" ∧
    create_snippet (Except.ok "64ffd2aab3c1e4d5f6a7b8ca") =
      PostResponse.created "64ffd2aab3c1e4d5f6a7b8ca" :=
  ⟨((create_handler_error_mapping
      (Except.error (StoreError.writeError "duplicate key"))).1 _ rfl).1,
   ((create_handler_error_mapping
      (Except.ok "64ffd2aab3c1e4d5f6a7b8ca")).2 _ rfl).2.2.1⟩

/-- Claim C5: Every accepted Dataset, Tool or Snippet payload has `tags`
present as a list in the validated document; when the payload omits
`tags`, the validated document's `tags` is the empty list. -/
theorem tags_always_present_as_list (p : Payload) :
    (∀ doc, validateDataset p = Except.ok doc →
       ∃ l, getField doc "tags" = some (BVal.arr (List.map BVal.str l)) ∧
            (lookupJ p "tags" = none → l = [])) ∧
    (∀ doc, validateTool p = Except.ok doc →
       ∃ l, getField doc "tags" = some (BVal.arr (List.map BVal.str l)) ∧
            (lookupJ p "tags" = none → l = [])) ∧
    (∀ doc, validateSnippet p = Except.ok doc →
       ∃ l, getField doc "tags" = some (BVal.arr (List.map BVal.str l)) ∧
            (lookupJ p "tags" = none → l = [])) := by
  refine ⟨?_, ?_, ?_⟩
  · intro doc h
    obtain ⟨n, d, u, r, li, m, sz, tags, _, _, _, _, _, _, _, h8, hdoc⟩ :=
      validateDataset_ok h
    subst hdoc
    refine ⟨tags, by simp [getField], ?_⟩
    intro habs
    injection (h8.symm.trans (getTags_of_absent habs))
  · intro doc h
    obtain ⟨n, d, r, ho, li, tags, _, _, _, _, _, h6, hdoc⟩ :=
      validateTool_ok h
    subst hdoc
    refine ⟨tags, by simp [getField], ?_⟩
    intro habs
    injection (h6.symm.trans (getTags_of_absent habs))
  · intro doc h
    obtain ⟨t, d, lng, c, r, tags, _, _, _, _, _, h6, hdoc⟩ :=
      validateSnippet_ok h
    subst hdoc
    refine ⟨tags, by simp [getField], ?_⟩
    intro habs
    injection (h6.symm.trans (getTags_of_absent habs))

/-- Witness for C5: a minimal dataset payload without `tags` validates to
a document whose `tags` is the empty list. -/
theorem tags_always_present_as_list_witness :
    validateDataset
        [("name", JVal.str "d"), ("description", JVal.str "x"),
         ("url", JVal.str "https://example.com/data")] =
      Except.ok
        [("name", BVal.str "d"), ("description", BVal.str "x"),
         ("url", BVal.str "https://example.com/data"),
         ("repo_url", BVal.null), ("license", BVal.null),
         ("maintainer", BVal.null), ("size_mb", BVal.null),
         ("tags", BVal.arr [])] ∧
    (∃ l, getField
        [("name", BVal.str "d"), ("description", BVal.str "x"),
         ("url", BVal.str "https://example.com/data"),
         ("repo_url", BVal.null), ("license", BVal.null),
         ("maintainer", BVal.null), ("size_mb", BVal.null),
         ("tags", BVal.arr [])] "tags" =
          some (BVal.arr (List.map BVal.str l)) ∧
       (lookupJ [("name", JVal.str "d"), ("description", JVal.str "x"),
                 ("url", JVal.str "https://example.com/data")] "tags" =
          none → l = [])) :=
  ⟨rfl,
   (tags_always_present_as_list
      [("name", JVal.str "d"), ("description", JVal.str "x"),
       ("url", JVal.str "https://example.com/data")]).1 _ rfl⟩

/-- Claim C8: A Dataset payload with a negative `size_mb` is rejected with a
validation error, and every URL-typed field (`url`, `repo_url`,
`homepage_url`) supplied as a string must parse as a valid URL for the
payload to be accepted. -/
theorem size_mb_and_url_validation (p : Payload) :
    (∀ x, lookupJ p "size_mb" = some (JVal.num x) → x < 0 →
       ∃ msg, validateDataset p = Except.error msg) ∧
    (∀ doc, validateDataset p = Except.ok doc →
       (∀ s, lookupJ p "url" = some (JVal.str s) → isHttpUrl s = true) ∧
       (∀ s, lookupJ p "repo_url" = some (JVal.str s) →
          isHttpUrl s = true)) ∧
    (∀ doc, validateTool p = Except.ok doc →
       (∀ s, lookupJ p "repo_url" = some (JVal.str s) →
          isHttpUrl s = true) ∧
       (∀ s, lookupJ p "homepage_url" = some (JVal.str s) →
          isHttpUrl s = true)) := by
  refine ⟨?_, ?_, ?_⟩
  · intro x hx hneg
    cases hv : validateDataset p with
    | error m => exact ⟨m, rfl⟩
    | ok doc =>
        exfalso
        obtain ⟨n, d, u, r, li, m, sz, tags,
          _, _, _, _, _, _, h7, _, _⟩ := validateDataset_ok hv
        unfold getOptNonnegNum at h7
        rw [hx] at h7
        have hlt : ¬ (0 : Int) ≤ x := by omega
        simp [hlt] at h7
  · intro doc hv
    obtain ⟨n, d, u, r, li, m, sz, tags,
      _, _, h3, h4, _, _, _, _, _⟩ := validateDataset_ok hv
    constructor
    · intro s hs
      unfold getReqUrl at h3
      rw [hs] at h3
      cases hiu : isHttpUrl s with
      | true => rfl
      | false => simp [hiu] at h3
    · intro s hs
      unfold getOptUrl at h4
      rw [hs] at h4
      cases hiu : isHttpUrl s with
      | true => rfl
      | false => simp [hiu] at h4
  · intro doc hv
    obtain ⟨n, d, r, ho, li, tags,
      _, _, h3, h4, _, _, _⟩ := validateTool_ok hv
    constructor
    · intro s hs
      unfold getReqUrl at h3
      rw [hs] at h3
      cases hiu : isHttpUrl s with
      | true => rfl
      | false => simp [hiu] at h3
    · intro s hs
      unfold getOptUrl at h4
      rw [hs] at h4
      cases hiu : isHttpUrl s with
      | true => rfl
      | false => simp [hiu] at h4

/-- Witness for C8: a dataset payload with `size_mb = -5` is rejected. -/
theorem size_mb_and_url_validation_witness :
    lookupJ [("name", JVal.str "d"), ("description", JVal.str "x"),
             ("url", JVal.str "https://example.com/data"),
             ("size_mb", JVal.num (-5))] "size_mb" =
      some (JVal.num (-5)) ∧
    (-5 : Int) < 0 ∧
    (∃ msg, validateDataset
        [("name", JVal.str "d"), ("description", JVal.str "x"),
         ("url", JVal.str "https://example.com/data"),
         ("size_mb", JVal.num (-5))] = Except.error msg) :=
  ⟨rfl, by decide,
   (size_mb_and_url_validation
      [("name", JVal.str "d"), ("description", JVal.str "x"),
       ("url", JVal.str "https://example.com/data"),
       ("size_mb", JVal.num (-5))]).1 (-5) rfl (by decide)⟩

/-- Claim C7: A non-empty query string `q` is placed verbatim (unescaped) as
the pattern of each substring-match condition of the `$or` group; and for
some `q` containing pattern metacharacters (here `a.c`) the resulting
condition matches as a pattern rather than as a literal substring. -/
theorem raw_query_used_as_pattern (q : String) (hq : q ≠ "") :
    dataset_filter none (some q) =
      [("$or", FVal.orList
        [("name", FCond.regexI q), ("description", FCond.regexI q)])] ∧
    tool_filter none (some q) =
      [("$or", FVal.orList
        [("name", FCond.regexI q), ("description", FCond.regexI q)])] ∧
    snippet_filter none none (some q) =
      [("$or", FVal.orList
        [("title", FCond.regexI q), ("description", FCond.regexI q),
         ("code", FCond.regexI q)])] ∧
    (∀ tag language,
       ("$or", FVal.orList
         [("title", FCond.regexI q), ("description", FCond.regexI q),
          ("code", FCond.regexI q)]) ∈ snippet_filter tag language (some q)) ∧
    regexIMatch "a.c" "abc" = true ∧
    containsSubstrI "a.c" "abc" = false ∧
    matchesFilter regexIMatch (dataset_filter none (some "a.c"))
      [("name", BVal.str "x"), ("description", BVal.str "abc")] = true := by
  have hqt : pyTruthy (some q) = true := pyTruthy_some hq
  have hqe : q.isEmpty = false := by
    cases he : q.isEmpty with
    | false => rfl
    | true => exact absurd ((String.isEmpty_iff q).mp he) hq
  refine ⟨?_, ?_, ?_, ?_, by decide, by decide, by decide⟩
  · simp [dataset_filter, pyTruthy, hqe]
  · simp [tool_filter, pyTruthy, hqe]
  · simp [snippet_filter, pyTruthy, hqe]
  · intro tag language
    simp [snippet_filter, hqt, List.mem_append]

/-- Witness for C7: the dataset filter for `q = "a.c"`. -/
theorem raw_query_used_as_pattern_witness :
    ("a.c" : String) ≠ "" ∧
    dataset_filter none (some "a.c") =
      [("$or", FVal.orList
        [("name", FCond.regexI "a.c"),
         ("description", FCond.regexI "a.c")])] :=
  ⟨by decide, (raw_query_used_as_pattern "a.c" (by decide)).1⟩

/-- Claim C6: A GET list request that omits the `limit` parameter invokes
the store list operation with limit 50, which caps the number of returned
records at 50. -/
theorem default_limit_caps_at_50 (rmatch : String → String → Bool)
    (store : List Doc) (tag q language : Option String) :
    list_datasets rmatch store tag q =
      (get_documents rmatch store (dataset_filter tag q) 50).map
        serialize_doc ∧
    (list_datasets rmatch store tag q).length ≤ 50 ∧
    list_tools rmatch store tag q =
      (get_documents rmatch store (tool_filter tag q) 50).map
        serialize_doc ∧
    (list_tools rmatch store tag q).length ≤ 50 ∧
    list_snippets rmatch store tag q language =
      (get_documents rmatch store (snippet_filter tag language q) 50).map
        serialize_doc ∧
    (list_snippets rmatch store tag q language).length ≤ 50 := by
  refine ⟨rfl, ?_, rfl, ?_, rfl, ?_⟩ <;>
  · simp only [list_datasets, list_tools, list_snippets, get_documents,
      List.length_map]
    exact List.length_take_le _ _

/-- Claim C9: The GET `/test` endpoint never returns an HTTP error: every
store failure is reported inside a successful payload, and the error
message embedded there is `str(e)` truncated to at most 50 characters. -/
theorem test_endpoint_degraded_and_truncated
    (db : Option DbHandle) (envUrlSet envNameSet : Bool) :
    (∃ r, test_route db envUrlSet envNameSet = Except.ok r) ∧
    (∀ d e, db = some d → d.list_collection_names = Except.error e →
       (test_database db envUrlSet envNameSet).database =
         "⚠️  Connected but Error: " ++ take50 e ∧
       (take50 e).length ≤ 50) := by
  refine ⟨⟨_, rfl⟩, ?_⟩
  rintro d e rfl he
  refine ⟨by simp [test_database, he], ?_⟩
  show (e.data.take 50).length ≤ 50
  exact List.length_take_le _ _

/-- Witness for C9: a store whose `list_collection_names` raises a
60-character error yields a degraded payload with the message cut to 50
characters. -/
theorem test_endpoint_degraded_and_truncated_witness :
    (∃ r, test_route
        (some ⟨some "mydb", Except.error
          "connection refused 01234567890123456789012345678901234567890"⟩)
        true false = Except.ok r) ∧
    ((test_database
        (some ⟨some "mydb", Except.error
          "connection refused 01234567890123456789012345678901234567890"⟩)
        true false).database =
      "⚠️  Connected but Error: " ++ take50
        "connection refused 01234567890123456789012345678901234567890" ∧
     (take50
        "connection refused 01234567890123456789012345678901234567890").length
       ≤ 50) :=
  ⟨(test_endpoint_degraded_and_truncated
      (some ⟨some "mydb", Except.error
        "connection refused 01234567890123456789012345678901234567890"⟩)
      true false).1,
   (test_endpoint_degraded_and_truncated
      (some ⟨some "mydb", Except.error
        "connection refused 01234567890123456789012345678901234567890"⟩)
      true false).2 _ _ rfl rfl⟩

end OSP
